import Mathlib

/-!
Shallow embedding of the user-account service in
`src/src/services/UsersService.ts` (Firestore document store + Redis cache).
Each service method is embedded as a pure function from a service state and
its inputs to the triple (response envelope, new state, effect trace), where
the effect trace records every store query/get/set/update/delete and every
cache get/set/delete in the order the source issues them.

The store is modelled as an association list from document id to document
(list order is the store's result order, so `docs[0]` is the list head).
The Redis payload at the fixed key `users` is modelled at the deserialized
level: `JSON.stringify`/`JSON.parse` round-trip as the identity, so the
single cache slot holds `Option (List PubUser)`.

The helper modules `utils/password`, `utils/formatData`, `utils/jwt` and
`utils/firestore-helpers` are imported by the source but not present in the
repository snapshot; they are modelled from the spec where noted. The
timestamp source `firestoreTimestamp.now()` is modelled by passing the
current time `now : Nat` as an explicit argument.
-/

namespace WMD

/-- Account document as persisted in the `users` collection
(`src/src/types/entities/User.ts` is absent from the snapshot; fields per
spec §3: email, password hash, role, creation and last-update timestamps). -/
structure UserDoc where
  email : String
  password : String
  role : String
  createdAt : Nat
  updatedAt : Nat
deriving Repr, DecidableEq

/-- Modelled from the spec: the hashing primitive of `utils/password`
(`encryptPassword`). The spec only requires that the stored field is a hash,
never the plaintext, and that it verifies via the verification primitive;
an injective tagging embedding satisfies both. -/
def encryptPassword (p : String) : String :=
  "hashed(" ++ p ++ ")"

/-- Modelled from the spec: the constant-work verification primitive of
`utils/password` (`comparePasswords claimed stored`): the claimed plaintext
verifies exactly when its hash is the stored hash. -/
def comparePasswords (claimed stored : String) : Bool :=
  stored == encryptPassword claimed

/-- Public-safe projection of a document as produced by
`utils/formatData.formatUserData` (absent from the snapshot). -/
structure FormattedUser where
  email : Option String
  role : Option String
  createdAt : Option Nat
  updatedAt : Option Nat
deriving Repr, DecidableEq

/-- Modelled from the spec: `formatUserData` of `utils/formatData` projects a
document to its public-safe shape, stripping the password (spec §4.2), and on
an empty/undefined document yields an empty/undefined projection (spec §4.4,
§9: missing document gives an empty/undefined projection, no failure). -/
def formatUserData : Option UserDoc → FormattedUser
  | none => { email := none, role := none, createdAt := none, updatedAt := none }
  | some u =>
      { email := some u.email, role := some u.role,
        createdAt := some u.createdAt, updatedAt := some u.updatedAt }

/-- Access token issued on successful login. -/
structure Token where
  userId : String
  role : Option String
deriving Repr, DecidableEq

/-- Modelled from the spec: `generateToken` of `utils/jwt` takes the document
id and the formatted role and returns a token embedding exactly that identity
and role (spec §3: the token encodes the account identifier and role). -/
def generateToken (userId : String) (role : Option String) : Token :=
  { userId := userId, role := role }

/-- Listing/profile entry `\x7b id: doc.id, ...formattedUser \x7d`. -/
structure PubUser where
  id : String
  fields : FormattedUser
deriving Repr, DecidableEq

/-- Response data payloads used by the embedded operations. -/
inductive ResData where
  | usersList (users : List PubUser)
  | profile (u : PubUser)
  | loginData (user : FormattedUser) (token : Token)
deriving Repr, DecidableEq

/-- Response envelope `IResBody` of `src/src/types/api`. -/
structure IResBody where
  status : Nat
  message : String
  data : Option ResData
deriving Repr, DecidableEq

/-- One store or cache I/O effect, recorded in source order. -/
inductive Eff where
  | storeQueryByEmail (email : String)
  | storeQueryAll
  | storeGet (id : String)
  | storeSet (id : String) (doc : UserDoc)
  | storeUpdate (id : String) (doc : UserDoc)
  | storeDelete (id : String)
  | cacheGet (key : String)
  | cacheSet (key : String) (value : List PubUser) (ex : Nat)
  | cacheDel (key : String)
deriving Repr, DecidableEq

/-- Whether an effect touches the cache (Redis) rather than the store. -/
def isCacheEff : Eff → Bool
  | .cacheGet _ => true
  | .cacheSet _ _ _ => true
  | .cacheDel _ => true
  | _ => false

/-- State of the external collaborators: the `users` collection (id-to-document
association list in store order) and the single cache slot at key `users`. -/
structure ServiceState where
  users : List (String × UserDoc)
  cache : Option (List PubUser)
deriving Repr, DecidableEq

/-- Store query `where('email', '==', email)`: all documents with that email,
in store order. -/
def findByEmail (users : List (String × UserDoc)) (email : String) :
    List (String × UserDoc) :=
  users.filter (fun p => p.2.email == email)

/-- Store get by document id (`doc(userId).get()`), as an optional document. -/
def lookupUser (users : List (String × UserDoc)) (id : String) : Option UserDoc :=
  (users.find? (fun p => p.1 == id)).map (fun p => p.2)

/-- Projection loop of `getUsers`: each document becomes
`\x7b id: doc.id, ...formatUserData(doc.data()) \x7d`. -/
def projectUsers (users : List (String × UserDoc)) : List PubUser :=
  users.map (fun p => { id := p.1, fields := formatUserData (some p.2) })

/-- Partial update payload of `updateUserById` (`Partial<User>`): each field
optionally supplied. -/
structure UserPatch where
  email : Option String := none
  password : Option String := none
  role : Option String := none
deriving Repr, DecidableEq

/-- Firestore `update` merge: supplied fields replace stored ones and
`updatedAt` is set to the current time (UsersService.ts lines 139-142). -/
def applyPatch (d : UserDoc) (p : UserPatch) (now : Nat) : UserDoc :=
  { email := p.email.getD d.email,
    password := p.password.getD d.password,
    role := p.role.getD d.role,
    createdAt := d.createdAt,
    updatedAt := now }

/-- `UsersService.createUser` (UsersService.ts lines 19-43): query by email;
if empty, set a fresh document with hashed password, role `member` and both
timestamps at the creation time, returning 201; else return 409 untouched.
The fresh document id produced by `this.db.users.doc()` is the argument
`freshId`. -/
def createUser (st : ServiceState) (email password freshId : String) (now : Nat) :
    IResBody × ServiceState × List Eff :=
  let ms := findByEmail st.users email
  if ms.isEmpty then
    let doc : UserDoc :=
      { email := email, password := encryptPassword password, role := "member",
        createdAt := now, updatedAt := now }
    ({ status := 201, message := "User created successfully!", data := none },
     { st with users := st.users ++ [(freshId, doc)] },
     [Eff.storeQueryByEmail email, Eff.storeSet freshId doc])
  else
    ({ status := 409, message := "User already exists", data := none },
     st, [Eff.storeQueryByEmail email])

/-- `UsersService.getUsers` (UsersService.ts lines 45-75): read the fixed
cache key `users`; on a hit return the deserialized cached listing; on a miss
query the whole collection, project it, cache it with `EX: 3600` and return
it; status 200 either way. -/
def getUsers (st : ServiceState) : IResBody × ServiceState × List Eff :=
  match st.cache with
  | some cached =>
      ({ status := 200, message := "Users retrieved successfully!",
         data := some (ResData.usersList cached) },
       st, [Eff.cacheGet "users"])
  | none =>
      let users := projectUsers st.users
      ({ status := 200, message := "Users retrieved successfully!",
         data := some (ResData.usersList users) },
       { st with cache := some users },
       [Eff.cacheGet "users", Eff.storeQueryAll,
        Eff.cacheSet "users" users 3600])

/-- `UsersService.login` (UsersService.ts lines 77-113): one query by email;
empty result gives 401 `Unauthorized`; otherwise `docs[0]` (the head) is
checked with `comparePasswords`, giving 200 with profile and token on match
and 401 `Unauthorized!` on mismatch. No state change; the single query is the
only effect. -/
def login (st : ServiceState) (email password : String) :
    IResBody × ServiceState × List Eff :=
  let res : IResBody :=
    match (findByEmail st.users email).head? with
    | none => { status := 401, message := "Unauthorized", data := none }
    | some (id, d) =>
        if comparePasswords password d.password then
          { status := 200, message := "User login successfully!",
            data := some (ResData.loginData (formatUserData (some d))
              (generateToken id (formatUserData (some d)).role)) }
        else { status := 401, message := "Unauthorized!", data := none }
  (res, st, [Eff.storeQueryByEmail email])

/-- `UsersService.getUserById` (UsersService.ts lines 115-127): one store get;
always 200 with `\x7b id: userId, ...formatUserData(doc.data()) \x7d`, even
when the document does not exist. -/
def getUserById (st : ServiceState) (userId : String) :
    IResBody × ServiceState × List Eff :=
  let d := lookupUser st.users userId
  ({ status := 200, message := "User retrieved successfully!",
     data := some (ResData.profile { id := userId, fields := formatUserData d }) },
   st, [Eff.storeGet userId])

/-- `UsersService.updateUserById` (UsersService.ts lines 129-155): get by id;
404 if absent; else update merging the patch with a fresh `updatedAt`, re-read
the document, and return 200 with the updated profile. -/
def updateUserById (st : ServiceState) (userId : String) (patch : UserPatch)
    (now : Nat) : IResBody × ServiceState × List Eff :=
  match lookupUser st.users userId with
  | none =>
      ({ status := 404, message := "User not found", data := none },
       st, [Eff.storeGet userId])
  | some d =>
      let nd := applyPatch d patch now
      ({ status := 200, message := "User updated successfully!",
         data := some (ResData.profile { id := userId, fields := formatUserData (some nd) }) },
       { st with users := st.users.map (fun p => if p.1 == userId then (p.1, nd) else p) },
       [Eff.storeGet userId, Eff.storeUpdate userId nd, Eff.storeGet userId])

/-- `UsersService.deleteUserById` (UsersService.ts lines 157-176): get by id;
404 if absent (no delete, no invalidation); else delete the document and then,
as the final step, delete the cache key `users`, returning 200. -/
def deleteUserById (st : ServiceState) (userId : String) :
    IResBody × ServiceState × List Eff :=
  match lookupUser st.users userId with
  | none =>
      ({ status := 404, message := "User not found", data := none },
       st, [Eff.storeGet userId])
  | some _ =>
      ({ status := 200, message := "User deleted successfully!", data := none },
       { users := st.users.filter (fun p => p.1 != userId), cache := none },
       [Eff.storeGet userId, Eff.storeDelete userId, Eff.cacheDel "users"])

/-- `UsersService.changePassword` (UsersService.ts lines 178-199): get by id;
404 if absent; else update the document with the new password hash and a fresh
`updatedAt`, returning 200. The cache is not touched. -/
def changePassword (st : ServiceState) (userId newPassword : String) (now : Nat) :
    IResBody × ServiceState × List Eff :=
  match lookupUser st.users userId with
  | none =>
      ({ status := 404, message := "User not found", data := none },
       st, [Eff.storeGet userId])
  | some d =>
      let nd : UserDoc := { d with password := encryptPassword newPassword, updatedAt := now }
      ({ status := 200, message := "Password changed successfully!", data := none },
       { st with users := st.users.map (fun p => if p.1 == userId then (p.1, nd) else p) },
       [Eff.storeGet userId, Eff.storeUpdate userId nd])

/-- Sample document used by concrete witnesses. -/
def sampleDoc : UserDoc :=
  { email := "alice@example.com", password := encryptPassword "pw1",
    role := "member", createdAt := 0, updatedAt := 0 }

/-- Sample state with one user and a cold cache, used by concrete witnesses. -/
def sampleState : ServiceState :=
  { users := [("u1", sampleDoc)], cache := none }

/-- Hashing never stores the plaintext: the hash differs from its input. -/
theorem encryptPassword_ne (p : String) : encryptPassword p ≠ p := by
  intro h
  have hl : (encryptPassword p).length = p.length := by rw [h]
  simp [encryptPassword, String.length_append] at hl
  have h7 : "hashed(".length = 7 := rfl
  have h1 : ")".length = 1 := rfl
  rw [h7, h1] at hl
  omega

/-- C1: on every `getUsers` call, a cache hit at the fixed key `users`
returns the deserialized cached listing with status 200 and no store access,
while a cache miss queries the store for every account, returns the projected
listing with status 200, and writes it to the cache key with a 3600-second
expiry. -/
theorem getUsers_cacheAside (st : ServiceState) :
    (∀ cached, st.cache = some cached →
      getUsers st =
        ({ status := 200, message := "Users retrieved successfully!",
           data := some (ResData.usersList cached) },
         st, [Eff.cacheGet "users"])) ∧
    (st.cache = none →
      getUsers st =
        ({ status := 200, message := "Users retrieved successfully!",
           data := some (ResData.usersList (projectUsers st.users)) },
         { st with cache := some (projectUsers st.users) },
         [Eff.cacheGet "users", Eff.storeQueryAll,
          Eff.cacheSet "users" (projectUsers st.users) 3600])) := by
  constructor
  · intro cached h
    simp [getUsers, h]
  · intro h
    simp [getUsers, h]

/-- Witness for C1: both branches evaluated at concrete states. -/
theorem getUsers_cacheAside_witness :
    (getUsers { users := [], cache := some [⟨"u1", formatUserData (some sampleDoc)⟩] } =
      ({ status := 200, message := "Users retrieved successfully!",
         data := some (ResData.usersList [⟨"u1", formatUserData (some sampleDoc)⟩]) },
       { users := [], cache := some [⟨"u1", formatUserData (some sampleDoc)⟩] },
       [Eff.cacheGet "users"])) ∧
    (getUsers sampleState =
      ({ status := 200, message := "Users retrieved successfully!",
         data := some (ResData.usersList (projectUsers sampleState.users)) },
       { sampleState with cache := some (projectUsers sampleState.users) },
       [Eff.cacheGet "users", Eff.storeQueryAll,
        Eff.cacheSet "users" (projectUsers sampleState.users) 3600])) :=
  ⟨(getUsers_cacheAside { users := [], cache := some [⟨"u1", formatUserData (some sampleDoc)⟩] }).1
      [⟨"u1", formatUserData (some sampleDoc)⟩] rfl,
   (getUsers_cacheAside sampleState).2 rfl⟩

/-- C2: `deleteUserById` on an existing id performs the store delete first and
then, as the final effect, deletes the fixed cache key `users`, returning 200;
on a missing id it returns 404 and performs neither the store delete nor the
cache invalidation (the only effect is the existence read). -/
theorem deleteUserById_invalidation (st : ServiceState) (userId : String) :
    ((lookupUser st.users userId).isSome →
      (deleteUserById st userId).1.status = 200 ∧
      (deleteUserById st userId).2.2 =
        [Eff.storeGet userId, Eff.storeDelete userId, Eff.cacheDel "users"]) ∧
    (lookupUser st.users userId = none →
      (deleteUserById st userId).1.status = 404 ∧
      (deleteUserById st userId).2.2 = [Eff.storeGet userId]) := by
  constructor
  · intro h
    rcases Option.isSome_iff_exists.mp h with ⟨d, hd⟩
    simp [deleteUserById, hd]
  · intro h
    simp [deleteUserById, h]

/-- Witness for C2: both branches evaluated at a concrete state. -/
theorem deleteUserById_invalidation_witness :
    ((deleteUserById sampleState "u1").1.status = 200 ∧
      (deleteUserById sampleState "u1").2.2 =
        [Eff.storeGet "u1", Eff.storeDelete "u1", Eff.cacheDel "users"]) ∧
    ((deleteUserById sampleState "ghost").1.status = 404 ∧
      (deleteUserById sampleState "ghost").2.2 = [Eff.storeGet "ghost"]) :=
  ⟨(deleteUserById_invalidation sampleState "u1").1 (by decide),
   (deleteUserById_invalidation sampleState "ghost").2 (by decide)⟩

/-- C10: `getUserById` has no failure branch: for every state and id, present
or not, it returns status 200 with a payload holding the supplied id and the
projection of the (possibly missing) document. -/
theorem getUserById_always_ok (st : ServiceState) (userId : String) :
    (getUserById st userId).1 =
      { status := 200, message := "User retrieved successfully!",
        data := some (ResData.profile
          { id := userId, fields := formatUserData (lookupUser st.users userId) }) } := by
  simp [getUserById]

/-- C3 counterexample: at a concrete state, login with a non-existent email
and login with an existing email but wrong password both return status 401,
yet their message texts differ (the source uses the string literal spelled
Unauthorized on the no-such-email branch and the same word followed by an
exclamation mark on the wrong-password branch), refuting the claim that the
two calls return identical message text. -/
theorem login_uniform_message_cex :
    (login sampleState "ghost@example.com" "pw1").1.status = 401 ∧
    (login sampleState "alice@example.com" "wrong").1.status = 401 ∧
    (login sampleState "ghost@example.com" "pw1").1.message ≠
      (login sampleState "alice@example.com" "wrong").1.message := by
  refine ⟨rfl, rfl, ?_⟩
  decide

/-- C3 amended: both failing login calls return status 401, but the message
texts are distinct fixed strings, one per failure cause: the no-such-email
branch answers with the bare word and the wrong-password branch appends an
exclamation mark. -/
theorem login_status_uniform_messages_differ (st : ServiceState)
    (e1 p1 e2 p2 id : String) (d : UserDoc) (rest : List (String × UserDoc))
    (h1 : findByEmail st.users e1 = [])
    (h2 : findByEmail st.users e2 = (id, d) :: rest)
    (h3 : comparePasswords p2 d.password = false) :
    (login st e1 p1).1.status = 401 ∧
    (login st e2 p2).1.status = 401 ∧
    (login st e1 p1).1.message = "Unauthorized" ∧
    (login st e2 p2).1.message = "Unauthorized!" := by
  refine ⟨?_, ?_, ?_, ?_⟩ <;> simp [login, h1, h2, h3]

/-- Witness for the amended C3, at a concrete state. -/
theorem login_status_uniform_messages_differ_witness :
    findByEmail sampleState.users "ghost@example.com" = [] ∧
    findByEmail sampleState.users "alice@example.com" = [("u1", sampleDoc)] ∧
    comparePasswords "wrong" sampleDoc.password = false ∧
    ((login sampleState "ghost@example.com" "pw1").1.status = 401 ∧
     (login sampleState "alice@example.com" "wrong").1.status = 401 ∧
     (login sampleState "ghost@example.com" "pw1").1.message = "Unauthorized" ∧
     (login sampleState "alice@example.com" "wrong").1.message = "Unauthorized!") :=
  ⟨by decide, by decide, by decide,
   login_status_uniform_messages_differ sampleState "ghost@example.com" "pw1"
     "alice@example.com" "wrong" "u1" sampleDoc [] (by decide) (by decide) (by decide)⟩

/-- C4: when the email query has a first match and the claimed password
verifies against its stored hash, login returns 200 with that account's
formatted profile and a token generated from exactly that document's id and
role. -/
theorem login_success_token (st : ServiceState) (email password id : String)
    (d : UserDoc) (rest : List (String × UserDoc))
    (h1 : findByEmail st.users email = (id, d) :: rest)
    (h2 : comparePasswords password d.password = true) :
    (login st email password).1 =
      { status := 200, message := "User login successfully!",
        data := some (ResData.loginData (formatUserData (some d))
          (generateToken id (formatUserData (some d)).role)) } ∧
    generateToken id (formatUserData (some d)).role = { userId := id, role := some d.role } := by
  constructor
  · simp [login, h1, h2]
  · simp [generateToken, formatUserData]

/-- Witness for C4, at a concrete state. -/
theorem login_success_token_witness :
    findByEmail sampleState.users "alice@example.com" = [("u1", sampleDoc)] ∧
    comparePasswords "pw1" sampleDoc.password = true ∧
    ((login sampleState "alice@example.com" "pw1").1 =
      { status := 200, message := "User login successfully!",
        data := some (ResData.loginData (formatUserData (some sampleDoc))
          (generateToken "u1" (formatUserData (some sampleDoc)).role)) } ∧
     generateToken "u1" (formatUserData (some sampleDoc)).role =
       { userId := "u1", role := some sampleDoc.role }) :=
  ⟨by decide, by decide,
   login_success_token sampleState "alice@example.com" "pw1" "u1" sampleDoc []
     (by decide) (by decide)⟩

/-- C5: `createUser` with a non-empty email-equality query returns 409 with
the state unchanged and no write effect; otherwise it appends a fresh record
whose password is the hash of the plaintext (and never the plaintext itself),
whose role is `member`, whose `createdAt` and `updatedAt` both equal the
creation time, and returns 201. -/
theorem createUser_spec (st : ServiceState) (email password freshId : String)
    (now : Nat) :
    (findByEmail st.users email ≠ [] →
      (createUser st email password freshId now).1.status = 409 ∧
      (createUser st email password freshId now).2.1 = st ∧
      (createUser st email password freshId now).2.2 = [Eff.storeQueryByEmail email]) ∧
    (findByEmail st.users email = [] →
      (createUser st email password freshId now).1.status = 201 ∧
      (createUser st email password freshId now).2.1.users =
        st.users ++ [(freshId,
          { email := email, password := encryptPassword password, role := "member",
            createdAt := now, updatedAt := now })] ∧
      (createUser st email password freshId now).2.2 =
        [Eff.storeQueryByEmail email, Eff.storeSet freshId
          { email := email, password := encryptPassword password, role := "member",
            createdAt := now, updatedAt := now }] ∧
      encryptPassword password ≠ password) := by
  constructor
  · intro h
    simp [createUser, List.isEmpty_iff, h]
  · intro h
    simp [createUser, List.isEmpty_iff, h, encryptPassword_ne]

/-- Witness for C5: both branches evaluated at concrete states. -/
theorem createUser_spec_witness :
    (findByEmail sampleState.users "alice@example.com" ≠ [] ∧
      (createUser sampleState "alice@example.com" "pw2" "u2" 5).1.status = 409 ∧
      (createUser sampleState "alice@example.com" "pw2" "u2" 5).2.1 = sampleState ∧
      (createUser sampleState "alice@example.com" "pw2" "u2" 5).2.2 =
        [Eff.storeQueryByEmail "alice@example.com"]) ∧
    (findByEmail sampleState.users "bob@example.com" = [] ∧
      (createUser sampleState "bob@example.com" "pw2" "u2" 5).1.status = 201 ∧
      (createUser sampleState "bob@example.com" "pw2" "u2" 5).2.1.users =
        sampleState.users ++ [("u2",
          { email := "bob@example.com", password := encryptPassword "pw2",
            role := "member", createdAt := 5, updatedAt := 5 })] ∧
      (createUser sampleState "bob@example.com" "pw2" "u2" 5).2.2 =
        [Eff.storeQueryByEmail "bob@example.com", Eff.storeSet "u2"
          { email := "bob@example.com", password := encryptPassword "pw2",
            role := "member", createdAt := 5, updatedAt := 5 }] ∧
      encryptPassword "pw2" ≠ "pw2") :=
  ⟨⟨by decide,
    (createUser_spec sampleState "alice@example.com" "pw2" "u2" 5).1 (by decide)⟩,
   ⟨by decide,
    (createUser_spec sampleState "bob@example.com" "pw2" "u2" 5).2 (by decide)⟩⟩

/-- C6: for an id with no document, `updateUserById`, `deleteUserById` and
`changePassword` each return 404, leave the state unchanged, and issue no
write, update or delete (each trace is only the existence read). -/
theorem notFound_no_mutation (st : ServiceState) (userId newPassword : String)
    (patch : UserPatch) (now : Nat)
    (h : lookupUser st.users userId = none) :
    (updateUserById st userId patch now).1.status = 404 ∧
    (updateUserById st userId patch now).2.1 = st ∧
    (updateUserById st userId patch now).2.2 = [Eff.storeGet userId] ∧
    (deleteUserById st userId).1.status = 404 ∧
    (deleteUserById st userId).2.1 = st ∧
    (deleteUserById st userId).2.2 = [Eff.storeGet userId] ∧
    (changePassword st userId newPassword now).1.status = 404 ∧
    (changePassword st userId newPassword now).2.1 = st ∧
    (changePassword st userId newPassword now).2.2 = [Eff.storeGet userId] := by
  simp [updateUserById, deleteUserById, changePassword, h]

/-- Witness for C6, at a concrete state and missing id. -/
theorem notFound_no_mutation_witness :
    lookupUser sampleState.users "ghost" = none ∧
    ((updateUserById sampleState "ghost" {} 7).1.status = 404 ∧
     (updateUserById sampleState "ghost" {} 7).2.1 = sampleState ∧
     (updateUserById sampleState "ghost" {} 7).2.2 = [Eff.storeGet "ghost"] ∧
     (deleteUserById sampleState "ghost").1.status = 404 ∧
     (deleteUserById sampleState "ghost").2.1 = sampleState ∧
     (deleteUserById sampleState "ghost").2.2 = [Eff.storeGet "ghost"] ∧
     (changePassword sampleState "ghost" "np" 7).1.status = 404 ∧
     (changePassword sampleState "ghost" "np" 7).2.1 = sampleState ∧
     (changePassword sampleState "ghost" "np" 7).2.2 = [Eff.storeGet "ghost"]) :=
  ⟨by decide, notFound_no_mutation sampleState "ghost" "np" {} 7 (by decide)⟩

/-- C7: every login call leaves the state unchanged (no store writes, no cache
reads, writes or deletes) and its trace is exactly one store query by the
email field; and the response depends only on the first result of that query,
so any state whose query has the same head gets the same response. -/
theorem login_frame (st : ServiceState) (email password : String) :
    (login st email password).2.2 = [Eff.storeQueryByEmail email] ∧
    (login st email password).2.1 = st ∧
    ∀ st2 : ServiceState,
      (findByEmail st2.users email).head? = (findByEmail st.users email).head? →
        (login st2 email password).1 = (login st email password).1 := by
  refine ⟨rfl, rfl, ?_⟩
  intro st2 h
  simp [login, h]

/-- Witness for C7: two states whose email query agrees on the head (one with
a second, ignored duplicate of the email) yield the same response. -/
theorem login_frame_witness :
    (login sampleState "alice@example.com" "pw1").2.2 =
      [Eff.storeQueryByEmail "alice@example.com"] ∧
    (login sampleState "alice@example.com" "pw1").2.1 = sampleState ∧
    (findByEmail ({ users := [("u1", sampleDoc), ("u9", sampleDoc)], cache := none } :
        ServiceState).users "alice@example.com").head? =
      (findByEmail sampleState.users "alice@example.com").head? ∧
    (login { users := [("u1", sampleDoc), ("u9", sampleDoc)], cache := none }
        "alice@example.com" "pw1").1 =
      (login sampleState "alice@example.com" "pw1").1 :=
  ⟨(login_frame sampleState "alice@example.com" "pw1").1,
   (login_frame sampleState "alice@example.com" "pw1").2.1,
   by decide,
   (login_frame sampleState "alice@example.com" "pw1").2.2
     { users := [("u1", sampleDoc), ("u9", sampleDoc)], cache := none } (by decide)⟩

/-- C8: `createUser`, `updateUserById` and `changePassword` never touch the
cache: their traces contain no cache effect and the cache slot of the
resulting state equals the initial one, for every state and input. -/
theorem mutations_no_cache_touch (st : ServiceState)
    (email password freshId userId newPassword : String) (patch : UserPatch)
    (now : Nat) :
    (createUser st email password freshId now).2.2.all (fun e => !isCacheEff e) = true ∧
    (createUser st email password freshId now).2.1.cache = st.cache ∧
    (updateUserById st userId patch now).2.2.all (fun e => !isCacheEff e) = true ∧
    (updateUserById st userId patch now).2.1.cache = st.cache ∧
    (changePassword st userId newPassword now).2.2.all (fun e => !isCacheEff e) = true ∧
    (changePassword st userId newPassword now).2.1.cache = st.cache := by
  refine ⟨?_, ?_, ?_, ?_, ?_, ?_⟩ <;>
    simp only [createUser, updateUserById, changePassword] <;>
    rcases lookupUser st.users userId with _ | d <;>
    rcases (findByEmail st.users email).isEmpty with _ | _ <;>
    simp [isCacheEff]

/-- C9: every mutation refreshes `updatedAt` to the current time: the record
written by `createUser` on the success path carries `updatedAt = now` (and
`createdAt = now`), and for every existing id the update effect issued by
`updateUserById` and by `changePassword` carries a document with
`updatedAt = now`. -/
theorem updatedAt_refreshed (st : ServiceState)
    (email password freshId userId newPassword : String) (patch : UserPatch)
    (now : Nat) (d : UserDoc)
    (hfree : findByEmail st.users email = [])
    (hid : lookupUser st.users userId = some d) :
    (createUser st email password freshId now).2.2 =
      [Eff.storeQueryByEmail email, Eff.storeSet freshId
        { email := email, password := encryptPassword password, role := "member",
          createdAt := now, updatedAt := now }] ∧
    (updateUserById st userId patch now).2.2 =
      [Eff.storeGet userId, Eff.storeUpdate userId (applyPatch d patch now),
       Eff.storeGet userId] ∧
    (applyPatch d patch now).updatedAt = now ∧
    (changePassword st userId newPassword now).2.2 =
      [Eff.storeGet userId, Eff.storeUpdate userId
        { d with password := encryptPassword newPassword, updatedAt := now }] ∧
    ({ d with password := encryptPassword newPassword, updatedAt := now } : UserDoc).updatedAt
      = now := by
  refine ⟨?_, ?_, rfl, ?_, rfl⟩
  · simp [createUser, List.isEmpty_iff, hfree]
  · simp [updateUserById, hid]
  · simp [changePassword, hid]

/-- Witness for C9, at a concrete state, free email and existing id. -/
theorem updatedAt_refreshed_witness :
    findByEmail sampleState.users "bob@example.com" = [] ∧
    lookupUser sampleState.users "u1" = some sampleDoc ∧
    ((createUser sampleState "bob@example.com" "pw2" "u2" 9).2.2 =
      [Eff.storeQueryByEmail "bob@example.com", Eff.storeSet "u2"
        { email := "bob@example.com", password := encryptPassword "pw2",
          role := "member", createdAt := 9, updatedAt := 9 }] ∧
     (updateUserById sampleState "u1" {} 9).2.2 =
      [Eff.storeGet "u1", Eff.storeUpdate "u1" (applyPatch sampleDoc {} 9),
       Eff.storeGet "u1"] ∧
     (applyPatch sampleDoc {} 9).updatedAt = 9 ∧
     (changePassword sampleState "u1" "np" 9).2.2 =
      [Eff.storeGet "u1", Eff.storeUpdate "u1"
        { sampleDoc with password := encryptPassword "np", updatedAt := 9 }] ∧
     ({ sampleDoc with password := encryptPassword "np", updatedAt := 9 } : UserDoc).updatedAt
       = 9) :=
  ⟨by decide, by decide,
   updatedAt_refreshed sampleState "bob@example.com" "pw2" "u2" "u1" "np" {} 9
     sampleDoc (by decide) (by decide)⟩

end WMD
